import Mathlib

/-!
Verification development for the designate tempest plugin: the polling
waiters of `designate_tempest_plugin/common/waiters.py` and the REST
client base of `designate_tempest_plugin/services/dns/json/base.py`.

Time is modelled as a natural number of seconds (the source truncates
`time.time()` with `int(...)`).  The remote DNS service is modelled as a
function from absolute time to the result of a `show_zone` call, and a
call issued at time `t` consumes `show_latency t` seconds of wall-clock
time.  A waiter execution is represented by a `Run`: the outcome (normal
return or raised exception), the ordered list of `show_zone` results the
execution observed, the absolute finishing time, and the value the local
variable `start` ended with (`none` when the assignment was never
reached).  Loops are driven by an explicit fuel parameter;
`Outcome.diverged` marks fuel exhaustion and corresponds to no exit of
the Python loop.
-/

/-- A zone snapshot as returned by `show_zone`: the body dict, of which the
source reads only the `status` field (an `id` field is kept so that distinct
snapshots with equal statuses exist). -/
structure Zone where
  id : String
  status : String
deriving Repr, DecidableEq

/-- Result of one `client.show_zone(zone_id)` call: a zone body, a raised
`lib_exc.NotFound`, or any other raised client/transport error (abstracted by
a numeric code). -/
inductive ShowResult where
  | ok (zone : Zone)
  | notFound
  | clientError (code : Nat)
deriving Repr, DecidableEq

/-- The waiter's collaborators: the configured polling interval and timeout
(`client.build_interval`, `client.build_timeout`), the service behaviour
(`show_zone` as a function of the absolute time at which the call is issued,
together with the wall-clock latency of that call), and the result of
`misc_utils.find_test_caller()`. -/
structure Client where
  build_interval : Nat
  build_timeout : Nat
  show_zone : Nat → ShowResult
  show_latency : Nat → Nat
  test_caller : Option String

/-- How a waiter execution ended.  `ok` is a plain `return` (the Python
functions return `None`, so no value is carried); `timeoutError` is
`raise lib_exc.TimeoutException(message)`; `notFound` and `clientError` are
exceptions from `show_zone` propagating out of the waiter uncaught;
`diverged` is fuel exhaustion of the model, not an exit of the loop. -/
inductive Outcome where
  | ok
  | timeoutError (message : String)
  | notFound
  | clientError (code : Nat)
  | diverged
deriving Repr, DecidableEq

/-- Predicate selecting the `timeoutError` outcomes. -/
def Outcome.isTimeout : Outcome → Bool
  | Outcome.timeoutError _ => true
  | _ => false

/-- Observable record of one waiter execution: outcome, the `show_zone`
results in call order, the absolute time when the execution ended, and the
final value of the waiter's local variable `start`. -/
structure Run where
  outcome : Outcome
  trace : List ShowResult
  finish : Nat
  start : Option Nat
deriving Repr, DecidableEq

/-- Prefixing of the timeout message with the calling test, mirroring
`if caller: message = '(%s) %s' % (caller, message)`. -/
def applyCaller (caller : Option String) (message : String) : String :=
  match caller with
  | some c => "(" ++ c ++ ") " ++ message
  | none => message

/-- The timeout message built by `wait_for_zone_404`, with the `%` dict
substituted: `'Zone %(zone_id)s failed to 404 within the required time
(%(timeout)s s). Current status: %(status_curr)s'`. -/
def zone404TimeoutMessage (zone_id status_curr : String) (timeout : Nat) : String :=
  "Zone " ++ zone_id ++ " failed to 404 within the required time (" ++
    toString timeout ++ " s). Current status: " ++ status_curr

/-- The timeout message built by `wait_for_zone_status`, with the `%` dict
substituted: `'Zone %(zone_id)s failed to reach status=%(status)s within the
required time (%(timeout)s s). Current status: %(status_curr)s'`. -/
def zoneStatusTimeoutMessage (zone_id status status_curr : String) (timeout : Nat) : String :=
  "Zone " ++ zone_id ++ " failed to reach status=" ++ status ++
    " within the required time (" ++ toString timeout ++
    " s). Current status: " ++ status_curr

/-- The `while True` loop of `wait_for_zone_404`, entered with local variable
`start` already set and the wall clock at `t`.  Each iteration sleeps
`build_interval`, calls `show_zone` (whose latency elapses before the
`int(time.time())` read of the timeout check), returns on `NotFound`,
propagates any other error, and otherwise raises `TimeoutException` exactly
when `int(time.time()) - start >= build_timeout`. -/
def wait_for_zone_404_loop (c : Client) (zone_id : String) (start : Nat) :
    Nat → Nat → Run
  | 0, t => ⟨Outcome.diverged, [], t, some start⟩
  | fuel + 1, t =>
    let t1 := t + c.build_interval
    let t2 := t1 + c.show_latency t1
    match c.show_zone t1 with
    | ShowResult.notFound => ⟨Outcome.ok, [ShowResult.notFound], t2, some start⟩
    | ShowResult.clientError e =>
        ⟨Outcome.clientError e, [ShowResult.clientError e], t2, some start⟩
    | ShowResult.ok zone =>
        if c.build_timeout ≤ t2 - start then
          ⟨Outcome.timeoutError (applyCaller c.test_caller
              (zone404TimeoutMessage zone_id zone.status c.build_timeout)),
            [ShowResult.ok zone], t2, some start⟩
        else
          let rest := wait_for_zone_404_loop c zone_id start fuel t2
          ⟨rest.outcome, ShowResult.ok zone :: rest.trace, rest.finish, rest.start⟩

/-- `wait_for_zone_404(client, zone_id)` started with the wall clock at `t0`:
it records `start = int(time.time())` before any sleep or fetch and enters the
polling loop. -/
def wait_for_zone_404 (c : Client) (zone_id : String) (t0 fuel : Nat) : Run :=
  wait_for_zone_404_loop c zone_id t0 fuel t0

/-- The `while` loop of `wait_for_zone_status`, entered after the initial
fetch with `start` set and the wall clock at `t`, knowing the zone is not yet
at the target status.  Each iteration sleeps `build_interval`, re-fetches
(exceptions propagate uncaught), returns when `status_curr == status`, and
otherwise raises `TimeoutException` exactly when
`int(time.time()) - start >= build_timeout`. -/
def wait_for_zone_status_loop (c : Client) (zone_id status : String) (start : Nat) :
    Nat → Nat → Run
  | 0, t => ⟨Outcome.diverged, [], t, some start⟩
  | fuel + 1, t =>
    let t1 := t + c.build_interval
    let t2 := t1 + c.show_latency t1
    match c.show_zone t1 with
    | ShowResult.notFound => ⟨Outcome.notFound, [ShowResult.notFound], t2, some start⟩
    | ShowResult.clientError e =>
        ⟨Outcome.clientError e, [ShowResult.clientError e], t2, some start⟩
    | ShowResult.ok zone =>
        if zone.status = status then
          ⟨Outcome.ok, [ShowResult.ok zone], t2, some start⟩
        else if c.build_timeout ≤ t2 - start then
          ⟨Outcome.timeoutError (applyCaller c.test_caller
              (zoneStatusTimeoutMessage zone_id status zone.status c.build_timeout)),
            [ShowResult.ok zone], t2, some start⟩
        else
          let rest := wait_for_zone_status_loop c zone_id status start fuel t2
          ⟨rest.outcome, ShowResult.ok zone :: rest.trace, rest.finish, rest.start⟩

/-- `wait_for_zone_status(client, zone_id, status)` started with the wall
clock at `t0`: it performs one initial fetch (whose exceptions propagate
before `start` is ever assigned), then records `start = int(time.time())`,
skips the loop entirely when the zone is already at the target status
(returning `None`), and otherwise enters the polling loop. -/
def wait_for_zone_status (c : Client) (zone_id status : String) (t0 fuel : Nat) : Run :=
  match c.show_zone t0 with
  | ShowResult.notFound =>
      ⟨Outcome.notFound, [ShowResult.notFound], t0 + c.show_latency t0, none⟩
  | ShowResult.clientError e =>
      ⟨Outcome.clientError e, [ShowResult.clientError e], t0 + c.show_latency t0, none⟩
  | ShowResult.ok zone =>
      if zone.status = status then
        ⟨Outcome.ok, [ShowResult.ok zone], t0 + c.show_latency t0,
          some (t0 + c.show_latency t0)⟩
      else
        let rest := wait_for_zone_status_loop c zone_id status
          (t0 + c.show_latency t0) fuel (t0 + c.show_latency t0)
        ⟨rest.outcome, ShowResult.ok zone :: rest.trace, rest.finish, rest.start⟩

/-- The keyword arguments of a call to a `handle_errors`-wrapped function:
the optional `ignore_errors` entry (a tuple of error kinds, abstracted as a
list of numeric codes) and the remaining keyword arguments. -/
structure Kwargs (K : Type) where
  ignore_errors : Option (List Nat)
  rest : K

/-- The `handle_errors` decorator of `services/dns/json/base.py`: the wrapper
reads `ignore_errors` from the keyword arguments (defaulting to the empty
tuple), deletes it before invoking the wrapped function `f`, returns `f`'s
result on success, and on an exception returns `None` when the exception's
kind is among the ignored ones and re-raises otherwise. -/
def handle_errors {A K B : Type} (f : A → K → Except Nat B)
    (args : A) (kwargs : Kwargs K) : Except Nat (Option B) :=
  let ignored_errors := kwargs.ignore_errors.getD []
  match f args kwargs.rest with
  | Except.ok r => Except.ok (some r)
  | Except.error e =>
      if e ∈ ignored_errors then Except.ok none else Except.error e

/-- `DnsClientBase._get_uri`: `'{pref}/{res}{uuid}{params}'` with
`uuid = '/%s' % uuid if uuid else ''` and
`params = '?%s' % urlencode(params) if params else ''` (the query string is
modelled already url-encoded; Python truthiness makes the empty string act
like absence). -/
def get_uri (pref resource_name : String) (uuid : Option String)
    (params : Option String) : String :=
  pref ++ "/" ++ resource_name ++
    (match uuid with
     | some u => if u = "" then "" else "/" ++ u
     | none => "") ++
    (match params with
     | some p => if p = "" then "" else "?" ++ p
     | none => "")

/-- The REST transport and (de)serialization collaborators of
`DnsClientBase`, external to this repository: each verb maps a URI (and a
request body for `post`) to the response status code and response body. -/
structure RestEnv (Obj : Type) where
  serialize : Obj → String
  deserialize : String → Obj
  post : String → String → Nat × String
  get : String → Nat × String
  delete : String → Nat × String

/-- Modelled from the spec: `tempest.lib.common.rest_client.RestClient
.expected_success`, an external collaborator not part of this repository —
"accept a configurable set of success status codes per operation; anything
else is a ServiceError".  It raises (carrying the offending status code)
unless the response status is in the expected set; the source also passes a
bare `200`, modelled as the singleton list `[200]`. -/
def expected_success (expected_codes : List Nat) (status : Nat) :
    Except Nat Unit :=
  if status ∈ expected_codes then Except.ok () else Except.error status

/-- `DnsClientBase._create_request`: serialize the object, build the
collection URI, `post`, require status in `[201, 202]`, and return the
response status with the deserialized body. -/
def create_request {Obj : Type} (env : RestEnv Obj) (pref resource : String)
    (object_dict : Obj) (params : Option String) : Except Nat (Nat × Obj) :=
  let body := env.serialize object_dict
  let uri := get_uri pref resource none params
  let r := env.post uri body
  match expected_success [201, 202] r.1 with
  | Except.error e => Except.error e
  | Except.ok _ => Except.ok (r.1, env.deserialize r.2)

/-- `DnsClientBase._show_request`: build the object URI, `get`, require
status `200`, and return the response status with the deserialized body. -/
def show_request {Obj : Type} (env : RestEnv Obj) (pref resource : String)
    (uuid : String) (params : Option String) : Except Nat (Nat × Obj) :=
  let uri := get_uri pref resource (some uuid) params
  let r := env.get uri
  match expected_success [200] r.1 with
  | Except.error e => Except.error e
  | Except.ok _ => Except.ok (r.1, env.deserialize r.2)

/-- `DnsClientBase._delete_request`: build the object URI, `delete`, require
status in `[202, 204]`, and return the response status with the deserialized
body. -/
def delete_request {Obj : Type} (env : RestEnv Obj) (pref resource : String)
    (uuid : String) (params : Option String) : Except Nat (Nat × Obj) :=
  let uri := get_uri pref resource (some uuid) params
  let r := env.delete uri
  match expected_success [202, 204] r.1 with
  | Except.error e => Except.error e
  | Except.ok _ => Except.ok (r.1, env.deserialize r.2)

/-- A fixed zone snapshot used by the concrete test environments below. -/
def pendingZone : Zone := ⟨"zid1", "PENDING"⟩

/-- Environment whose zone never changes: every poll sees the same PENDING
zone, so both waiters time out (interval 1, timeout 2). -/
def clientStuck : Client :=
  ⟨1, 2, fun _ => ShowResult.ok pendingZone, fun _ => 0, none⟩

/-- Environment whose zone is absent from the start: every poll raises
`NotFound` (interval 1, timeout 5). -/
def clientGone : Client :=
  ⟨1, 5, fun _ => ShowResult.notFound, fun _ => 0, none⟩

/-- Environment whose service always fails with a non-NotFound client error
of code 500 (interval 1, timeout 5). -/
def clientBroken : Client :=
  ⟨1, 5, fun _ => ShowResult.clientError 500, fun _ => 0, none⟩

/-- Environment whose zone is PENDING before absolute time 2 and ACTIVE from
time 2 on (interval 1, timeout 5). -/
def clientReach : Client :=
  ⟨1, 5, fun t => ShowResult.ok ⟨"zid1", if t < 2 then "PENDING" else "ACTIVE"⟩,
    fun _ => 0, none⟩

/-- Environment whose zone exists (PENDING) before absolute time 2 and is
deleted from time 2 on (interval 1, timeout 5). -/
def clientDel2 : Client :=
  ⟨1, 5, fun t => if t < 2 then ShowResult.ok pendingZone else ShowResult.notFound,
    fun _ => 0, none⟩

/-- Environment whose zone is immediately ACTIVE with id `a`. -/
def clientSnapA : Client :=
  ⟨1, 5, fun _ => ShowResult.ok ⟨"a", "ACTIVE"⟩, fun _ => 0, none⟩

/-- Environment whose zone is immediately ACTIVE with id `b`. -/
def clientSnapB : Client :=
  ⟨1, 5, fun _ => ShowResult.ok ⟨"b", "ACTIVE"⟩, fun _ => 0, none⟩

/-- Environment with a never-changing PENDING zone, interval 3 and timeout 4:
`wait_for_zone_404` times out with 6 seconds elapsed. -/
def clientSlowPollA : Client :=
  ⟨3, 4, fun _ => ShowResult.ok pendingZone, fun _ => 0, none⟩

/-- Environment with a never-changing PENDING zone, interval 4 and timeout 4:
`wait_for_zone_404` times out with 4 seconds elapsed. -/
def clientSlowPollB : Client :=
  ⟨4, 4, fun _ => ShowResult.ok pendingZone, fun _ => 0, none⟩

theorem getLast?_cons_of_some {α : Type} {l : List α} {x : α} (a : α)
    (h : l.getLast? = some x) : (a :: l).getLast? = some x := by
  cases l with
  | nil => simp at h
  | cons b m => rw [List.getLast?_cons_cons]; exact h

theorem loop404_start_eq (c : Client) (zone_id : String) (s : Nat) :
    ∀ fuel t, (wait_for_zone_404_loop c zone_id s fuel t).start = some s := by
  intro fuel
  induction fuel with
  | zero => intro t; rfl
  | succ n ih =>
    intro t
    simp only [wait_for_zone_404_loop]
    cases h : c.show_zone (t + c.build_interval) with
    | notFound => rfl
    | clientError e => rfl
    | ok zone =>
      by_cases hto : c.build_timeout ≤ t + c.build_interval + c.show_latency (t + c.build_interval) - s
      · simp [hto]
      · simp [hto, ih]

theorem loopStatus_start_eq (c : Client) (zone_id status : String) (s : Nat) :
    ∀ fuel t, (wait_for_zone_status_loop c zone_id status s fuel t).start = some s := by
  intro fuel
  induction fuel with
  | zero => intro t; rfl
  | succ n ih =>
    intro t
    simp only [wait_for_zone_status_loop]
    cases h : c.show_zone (t + c.build_interval) with
    | notFound => rfl
    | clientError e => rfl
    | ok zone =>
      by_cases hst : zone.status = status
      · simp [hst]
      · by_cases hto : c.build_timeout ≤ t + c.build_interval + c.show_latency (t + c.build_interval) - s
        · simp [hst, hto]
        · simp [hst, hto, ih]

theorem loop404_timeout_spec (c : Client) (zone_id : String) (s : Nat) :
    ∀ fuel t m, (wait_for_zone_404_loop c zone_id s fuel t).outcome = Outcome.timeoutError m →
      c.build_timeout ≤ (wait_for_zone_404_loop c zone_id s fuel t).finish - s ∧
      ∃ z, (wait_for_zone_404_loop c zone_id s fuel t).trace.getLast? = some (ShowResult.ok z) ∧
        m = applyCaller c.test_caller (zone404TimeoutMessage zone_id z.status c.build_timeout) := by
  intro fuel
  induction fuel with
  | zero => intro t m h; simp [wait_for_zone_404_loop] at h
  | succ n ih =>
    intro t m h
    simp only [wait_for_zone_404_loop] at h ⊢
    cases hs : c.show_zone (t + c.build_interval) with
    | notFound => simp [hs] at h
    | clientError e => simp [hs] at h
    | ok zone =>
      by_cases hto : c.build_timeout ≤ t + c.build_interval + c.show_latency (t + c.build_interval) - s
      · simp only [hs, if_pos hto] at h ⊢
        refine ⟨hto, zone, by simp, ?_⟩
        exact (Outcome.timeoutError.injEq _ _).mp h.symm
      · simp only [hs, if_neg hto] at h ⊢
        obtain ⟨h1, z, h2, h3⟩ := ih _ m h
        exact ⟨h1, z, getLast?_cons_of_some _ h2, h3⟩

theorem loopStatus_timeout_spec (c : Client) (zone_id status : String) (s : Nat) :
    ∀ fuel t m, (wait_for_zone_status_loop c zone_id status s fuel t).outcome = Outcome.timeoutError m →
      c.build_timeout ≤ (wait_for_zone_status_loop c zone_id status s fuel t).finish - s ∧
      ∃ z, (wait_for_zone_status_loop c zone_id status s fuel t).trace.getLast? = some (ShowResult.ok z) ∧
        m = applyCaller c.test_caller (zoneStatusTimeoutMessage zone_id status z.status c.build_timeout) := by
  intro fuel
  induction fuel with
  | zero => intro t m h; simp [wait_for_zone_status_loop] at h
  | succ n ih =>
    intro t m h
    simp only [wait_for_zone_status_loop] at h ⊢
    cases hs : c.show_zone (t + c.build_interval) with
    | notFound => simp [hs] at h
    | clientError e => simp [hs] at h
    | ok zone =>
      by_cases hst : zone.status = status
      · simp [hs, hst] at h
      · by_cases hto : c.build_timeout ≤ t + c.build_interval + c.show_latency (t + c.build_interval) - s
        · simp only [hs, if_neg hst, if_pos hto] at h ⊢
          refine ⟨hto, zone, by simp, ?_⟩
          exact (Outcome.timeoutError.injEq _ _).mp h.symm
        · simp only [hs, if_neg hst, if_neg hto] at h ⊢
          obtain ⟨h1, z, h2, h3⟩ := ih _ m h
          exact ⟨h1, z, getLast?_cons_of_some _ h2, h3⟩

theorem loop404_ok_spec (c : Client) (zone_id : String) (s : Nat) :
    ∀ fuel t,
      ((wait_for_zone_404_loop c zone_id s fuel t).outcome = Outcome.ok ↔
        ShowResult.notFound ∈ (wait_for_zone_404_loop c zone_id s fuel t).trace) ∧
      ((wait_for_zone_404_loop c zone_id s fuel t).outcome = Outcome.ok →
        (wait_for_zone_404_loop c zone_id s fuel t).trace.getLast? = some ShowResult.notFound) := by
  intro fuel
  induction fuel with
  | zero => intro t; simp [wait_for_zone_404_loop]
  | succ n ih =>
    intro t
    simp only [wait_for_zone_404_loop]
    cases hs : c.show_zone (t + c.build_interval) with
    | notFound => simp
    | clientError e => simp
    | ok zone =>
      by_cases hto : c.build_timeout ≤ t + c.build_interval + c.show_latency (t + c.build_interval) - s
      · simp [hto]
      · simp only [if_neg hto]
        obtain ⟨ih1, ih2⟩ := ih (t + c.build_interval + c.show_latency (t + c.build_interval))
        constructor
        · simp only [List.mem_cons]
          rw [ih1]
          constructor
          · intro h; exact Or.inr h
          · intro h
            cases h with
            | inl h => exact absurd h.symm (by simp)
            | inr h => exact h
        · intro h
          exact getLast?_cons_of_some _ (ih2 h)

theorem loop404_cases (c : Client) (zone_id : String) (s : Nat) :
    ∀ fuel t,
      (wait_for_zone_404_loop c zone_id s fuel t).outcome = Outcome.ok ∨
      (wait_for_zone_404_loop c zone_id s fuel t).outcome = Outcome.diverged ∨
      (∃ m, (wait_for_zone_404_loop c zone_id s fuel t).outcome = Outcome.timeoutError m) ∨
      (∃ e, (wait_for_zone_404_loop c zone_id s fuel t).outcome = Outcome.clientError e) := by
  intro fuel
  induction fuel with
  | zero => intro t; exact Or.inr (Or.inl rfl)
  | succ n ih =>
    intro t
    simp only [wait_for_zone_404_loop]
    cases hs : c.show_zone (t + c.build_interval) with
    | notFound => exact Or.inl rfl
    | clientError e => exact Or.inr (Or.inr (Or.inr ⟨e, rfl⟩))
    | ok zone =>
      by_cases hto : c.build_timeout ≤ t + c.build_interval + c.show_latency (t + c.build_interval) - s
      · simp only [if_pos hto]
        exact Or.inr (Or.inr (Or.inl ⟨_, rfl⟩))
      · simp only [if_neg hto]
        exact ih _

theorem loop404_clientError_mem (c : Client) (zone_id : String) (s : Nat) :
    ∀ fuel t e, ShowResult.clientError e ∈ (wait_for_zone_404_loop c zone_id s fuel t).trace →
      (wait_for_zone_404_loop c zone_id s fuel t).outcome = Outcome.clientError e ∧
      (wait_for_zone_404_loop c zone_id s fuel t).trace.getLast? = some (ShowResult.clientError e) := by
  intro fuel
  induction fuel with
  | zero => intro t e h; simp [wait_for_zone_404_loop] at h
  | succ n ih =>
    intro t e h
    simp only [wait_for_zone_404_loop] at h ⊢
    cases hs : c.show_zone (t + c.build_interval) with
    | notFound => simp [hs] at h
    | clientError f =>
      simp only [hs] at h
      simp only [List.mem_singleton] at h
      cases h
      simp [hs]
    | ok zone =>
      by_cases hto : c.build_timeout ≤ t + c.build_interval + c.show_latency (t + c.build_interval) - s
      · simp [hs, hto] at h
      · simp only [hs, if_neg hto] at h ⊢
        simp only [List.mem_cons] at h
        cases h with
        | inl h => exact absurd h (by simp)
        | inr h =>
          obtain ⟨h1, h2⟩ := ih _ e h
          exact ⟨h1, getLast?_cons_of_some _ h2⟩

theorem loopStatus_propagate (c : Client) (zone_id status : String) (s : Nat) :
    ∀ fuel t,
      (∀ e, ShowResult.clientError e ∈ (wait_for_zone_status_loop c zone_id status s fuel t).trace →
        (wait_for_zone_status_loop c zone_id status s fuel t).outcome = Outcome.clientError e ∧
        (wait_for_zone_status_loop c zone_id status s fuel t).trace.getLast? = some (ShowResult.clientError e)) ∧
      (ShowResult.notFound ∈ (wait_for_zone_status_loop c zone_id status s fuel t).trace →
        (wait_for_zone_status_loop c zone_id status s fuel t).outcome = Outcome.notFound ∧
        (wait_for_zone_status_loop c zone_id status s fuel t).trace.getLast? = some ShowResult.notFound) := by
  intro fuel
  induction fuel with
  | zero =>
    intro t
    constructor
    · intro e h
      simp [wait_for_zone_status_loop] at h
    · intro h
      simp [wait_for_zone_status_loop] at h
  | succ n ih =>
    intro t
    simp only [wait_for_zone_status_loop]
    cases hs : c.show_zone (t + c.build_interval) with
    | notFound => simp
    | clientError f =>
      constructor
      · intro e h
        simp only [List.mem_singleton] at h
        cases h
        simp
      · intro h; simp at h
    | ok zone =>
      by_cases hst : zone.status = status
      · simp [hst]
      · by_cases hto : c.build_timeout ≤ t + c.build_interval + c.show_latency (t + c.build_interval) - s
        · simp [hst, hto]
        · simp only [if_neg hst, if_neg hto]
          obtain ⟨ih1, ih2⟩ := ih (t + c.build_interval + c.show_latency (t + c.build_interval))
          constructor
          · intro e h
            simp only [List.mem_cons] at h
            cases h with
            | inl h => exact absurd h (by simp)
            | inr h =>
              obtain ⟨h1, h2⟩ := ih1 e h
              exact ⟨h1, getLast?_cons_of_some _ h2⟩
          · intro h
            simp only [List.mem_cons] at h
            cases h with
            | inl h => exact absurd h (by simp)
            | inr h =>
              obtain ⟨h1, h2⟩ := ih2 h
              exact ⟨h1, getLast?_cons_of_some _ h2⟩

theorem loop404_deleted (c : Client) (zone_id : String) (z : Zone) (t0 ttd : Nat)
    (hi : 1 ≤ c.build_interval)
    (hlat : ∀ t, c.show_latency t = 0)
    (henv : ∀ t, t0 ≤ t →
      c.show_zone t = if t < t0 + ttd then ShowResult.ok z else ShowResult.notFound)
    (httd : ttd ≤ c.build_timeout) :
    ∀ fuel t, t0 ≤ t → t < t0 + ttd → t0 + ttd - t ≤ fuel * c.build_interval →
      (wait_for_zone_404_loop c zone_id t0 fuel t).outcome = Outcome.ok ∧
      (wait_for_zone_404_loop c zone_id t0 fuel t).trace.length =
        (t0 + ttd - t + c.build_interval - 1) / c.build_interval := by
  intro fuel
  induction fuel with
  | zero =>
    intro t h1 h2 h3
    rw [Nat.zero_mul] at h3
    omega
  | succ n ih =>
    intro t ht hlt hfuel
    rw [Nat.succ_mul] at hfuel
    simp only [wait_for_zone_404_loop, hlat, Nat.add_zero]
    have henv1 := henv (t + c.build_interval) (by omega)
    by_cases hcase : t + c.build_interval < t0 + ttd
    · rw [if_pos hcase] at henv1
      have hto : ¬ (c.build_timeout ≤ t + c.build_interval - t0) := by omega
      simp only [henv1, if_neg hto]
      constructor
      · exact (ih (t + c.build_interval) (by omega) hcase (by omega)).1
      · simp only [List.length_cons]
        rw [(ih (t + c.build_interval) (by omega) hcase (by omega)).2]
        have hr : t0 + ttd - t + c.build_interval - 1
            = (t0 + ttd - (t + c.build_interval) + c.build_interval - 1) + c.build_interval := by
          omega
        rw [hr, Nat.add_div_right _ (by omega)]
    · rw [if_neg hcase] at henv1
      simp only [henv1]
      refine ⟨trivial, ?_⟩
      have hr1 : t0 + ttd - t + c.build_interval - 1
          = (t0 + ttd - t - 1) + c.build_interval := by omega
      rw [List.length_singleton, hr1, Nat.add_div_right _ (by omega),
        Nat.div_eq_of_lt (by omega)]

theorem loopStatus_reaches (c : Client) (zone_id status : String) (T s : Nat)
    (hi : 1 ≤ c.build_interval)
    (hlat : ∀ t, c.show_latency t = 0)
    (h1 : ∀ t, ∃ z, c.show_zone t = ShowResult.ok z)
    (h2 : ∀ t z, T ≤ t → c.show_zone t = ShowResult.ok z → z.status = status)
    (hT : T ≤ s + c.build_timeout) :
    ∀ fuel t, 1 ≤ fuel → T ≤ t + fuel * c.build_interval → s ≤ t →
      (wait_for_zone_status_loop c zone_id status s fuel t).outcome = Outcome.ok ∧
      ∃ z, (wait_for_zone_status_loop c zone_id status s fuel t).trace.getLast? =
          some (ShowResult.ok z) ∧ z.status = status := by
  intro fuel
  induction fuel with
  | zero =>
    intro t h _ _
    omega
  | succ n ih =>
    intro t hf hTle hs
    rw [Nat.succ_mul] at hTle
    simp only [wait_for_zone_status_loop, hlat, Nat.add_zero]
    obtain ⟨z, hz⟩ := h1 (t + c.build_interval)
    simp only [hz]
    by_cases hst : z.status = status
    · rw [if_pos hst]
      exact ⟨rfl, z, by simp, hst⟩
    · rw [if_neg hst]
      have hTgt : t + c.build_interval < T := by
        by_contra hcon
        exact hst (h2 (t + c.build_interval) z (by omega) hz)
      have hto : ¬ (c.build_timeout ≤ t + c.build_interval - s) := by omega
      rw [if_neg hto]
      have hn : 1 ≤ n := by
        by_contra hcon
        have hn0 : n = 0 := by omega
        subst hn0
        rw [Nat.zero_mul] at hTle
        omega
      obtain ⟨iho, z2, hl, hzs⟩ := ih (t + c.build_interval) hn (by omega) (by omega)
      exact ⟨iho, z2, getLast?_cons_of_some _ hl, hzs⟩

theorem isTimeout_iff (o : Outcome) :
    o.isTimeout = true ↔ ∃ m, o = Outcome.timeoutError m := by
  cases o <;> simp [Outcome.isTimeout]

theorem statusRun_timeout_spec (c : Client) (zone_id status : String) (t0 fuel : Nat) (m : String)
    (h : (wait_for_zone_status c zone_id status t0 fuel).outcome = Outcome.timeoutError m) :
    (∃ s, (wait_for_zone_status c zone_id status t0 fuel).start = some s ∧
      c.build_timeout ≤ (wait_for_zone_status c zone_id status t0 fuel).finish - s) ∧
    (∃ z, (wait_for_zone_status c zone_id status t0 fuel).trace.getLast? = some (ShowResult.ok z) ∧
      m = applyCaller c.test_caller
        (zoneStatusTimeoutMessage zone_id status z.status c.build_timeout)) := by
  revert h
  simp only [wait_for_zone_status]
  cases hs : c.show_zone t0 with
  | notFound => intro h; simp at h
  | clientError f => intro h; simp at h
  | ok zone =>
    dsimp only
    by_cases hst : zone.status = status
    · rw [if_pos hst]
      intro h
      simp at h
    · rw [if_neg hst]
      intro h
      simp only at h
      obtain ⟨hb, z, hl, hm⟩ :=
        loopStatus_timeout_spec c zone_id status (t0 + c.show_latency t0) fuel
          (t0 + c.show_latency t0) m h
      refine ⟨⟨t0 + c.show_latency t0, ?_, hb⟩, z, getLast?_cons_of_some _ hl, hm⟩
      exact loopStatus_start_eq c zone_id status (t0 + c.show_latency t0) fuel
        (t0 + c.show_latency t0)

theorem statusRun_propagate (c : Client) (zone_id status : String) (t0 fuel : Nat) :
    (∀ e, ShowResult.clientError e ∈ (wait_for_zone_status c zone_id status t0 fuel).trace →
      (wait_for_zone_status c zone_id status t0 fuel).outcome = Outcome.clientError e ∧
      (wait_for_zone_status c zone_id status t0 fuel).trace.getLast? =
        some (ShowResult.clientError e)) ∧
    (ShowResult.notFound ∈ (wait_for_zone_status c zone_id status t0 fuel).trace →
      (wait_for_zone_status c zone_id status t0 fuel).outcome = Outcome.notFound ∧
      (wait_for_zone_status c zone_id status t0 fuel).trace.getLast? =
        some ShowResult.notFound) := by
  simp only [wait_for_zone_status]
  cases hs : c.show_zone t0 with
  | notFound =>
    constructor
    · intro e h
      simp at h
    · intro h
      simp
  | clientError f =>
    constructor
    · intro e h
      simp only [List.mem_singleton] at h
      cases h
      simp
    · intro h
      simp at h
  | ok zone =>
    dsimp only
    by_cases hst : zone.status = status
    · rw [if_pos hst]
      constructor
      · intro e h
        simp at h
      · intro h
        simp at h
    · rw [if_neg hst]
      obtain ⟨p1, p2⟩ := loopStatus_propagate c zone_id status (t0 + c.show_latency t0)
        fuel (t0 + c.show_latency t0)
      constructor
      · intro e h
        simp only [List.mem_cons] at h
        cases h with
        | inl h0 => exact absurd h0 (by simp)
        | inr h0 =>
          obtain ⟨q1, q2⟩ := p1 e h0
          exact ⟨q1, getLast?_cons_of_some _ q2⟩
      · intro h
        simp only [List.mem_cons] at h
        cases h with
        | inl h0 => exact absurd h0 (by simp)
        | inr h0 =>
          obtain ⟨q1, q2⟩ := p2 h0
          exact ⟨q1, getLast?_cons_of_some _ q2⟩

/-- C1 (amended): for every service whose zone status has stably become the
target status by an absolute time `T` within the deadline of the wait started
at `t0`, `wait_for_zone_status` terminates successfully — returning no value,
as the source returns `None` — and the last snapshot it fetched has `status`
equal to the target status. -/
theorem wait_for_zone_status_reaches_target (c : Client) (zone_id status : String)
    (T t0 fuel : Nat)
    (hi : 1 ≤ c.build_interval)
    (hlat : ∀ t, c.show_latency t = 0)
    (h1 : ∀ t, ∃ z, c.show_zone t = ShowResult.ok z)
    (h2 : ∀ t z, T ≤ t → c.show_zone t = ShowResult.ok z → z.status = status)
    (hT : T ≤ t0 + c.build_timeout)
    (hfuel1 : 1 ≤ fuel) (hfuel2 : T ≤ t0 + fuel * c.build_interval) :
    (wait_for_zone_status c zone_id status t0 fuel).outcome = Outcome.ok ∧
    ∃ z, (wait_for_zone_status c zone_id status t0 fuel).trace.getLast? =
        some (ShowResult.ok z) ∧ z.status = status := by
  simp only [wait_for_zone_status]
  obtain ⟨z0, hz0⟩ := h1 t0
  simp only [hz0, hlat, Nat.add_zero]
  by_cases hst : z0.status = status
  · rw [if_pos hst]
    exact ⟨rfl, z0, by simp, hst⟩
  · rw [if_neg hst]
    obtain ⟨iho, z2, hl, hzs⟩ := loopStatus_reaches c zone_id status T t0 hi hlat h1 h2 hT
      fuel t0 hfuel1 hfuel2 (Nat.le_refl t0)
    exact ⟨iho, z2, getLast?_cons_of_some _ hl, hzs⟩

/-- C2: in both waiters, a `TimeoutException` is raised only at a point where
the elapsed wall-clock time since the recorded `start` is at least
`build_timeout`, and the raise happens directly after a fetch that returned a
zone (the check is evaluated after the fetch, never mid-sleep). -/
theorem timeouts_respect_deadline (c : Client) (zone_id status : String) (t0 fuel : Nat) :
    ((wait_for_zone_404 c zone_id t0 fuel).outcome.isTimeout = true →
      c.build_timeout ≤ (wait_for_zone_404 c zone_id t0 fuel).finish - t0 ∧
      ∃ z, (wait_for_zone_404 c zone_id t0 fuel).trace.getLast? = some (ShowResult.ok z)) ∧
    ((wait_for_zone_status c zone_id status t0 fuel).outcome.isTimeout = true →
      ∃ s, (wait_for_zone_status c zone_id status t0 fuel).start = some s ∧
        c.build_timeout ≤ (wait_for_zone_status c zone_id status t0 fuel).finish - s ∧
        ∃ z, (wait_for_zone_status c zone_id status t0 fuel).trace.getLast? =
          some (ShowResult.ok z)) := by
  constructor
  · intro h
    obtain ⟨m, hm⟩ := (isTimeout_iff _).mp h
    obtain ⟨hb, z, hl, _⟩ := loop404_timeout_spec c zone_id t0 fuel t0 m hm
    exact ⟨hb, z, hl⟩
  · intro h
    obtain ⟨m, hm⟩ := (isTimeout_iff _).mp h
    obtain ⟨⟨s, hs, hb⟩, z, hl, _⟩ := statusRun_timeout_spec c zone_id status t0 fuel m hm
    exact ⟨s, hs, hb, z, hl⟩

/-- C3: `wait_for_zone_404` returns successfully exactly when one of its
`show_zone` calls raised `NotFound`; that `NotFound` is the last call of the
execution (the waiter returns immediately upon it); and every completed
execution other than this success raises — a `TimeoutException` or a
propagated client error (`Outcome.diverged` is only the model's fuel bound,
not an exit of the loop). -/
theorem wait_for_zone_404_success_iff (c : Client) (zone_id : String) (t0 fuel : Nat) :
    ((wait_for_zone_404 c zone_id t0 fuel).outcome = Outcome.ok ↔
      ShowResult.notFound ∈ (wait_for_zone_404 c zone_id t0 fuel).trace) ∧
    ((wait_for_zone_404 c zone_id t0 fuel).outcome = Outcome.ok →
      (wait_for_zone_404 c zone_id t0 fuel).trace.getLast? = some ShowResult.notFound) ∧
    ((wait_for_zone_404 c zone_id t0 fuel).outcome = Outcome.ok ∨
      (wait_for_zone_404 c zone_id t0 fuel).outcome = Outcome.diverged ∨
      (∃ m, (wait_for_zone_404 c zone_id t0 fuel).outcome = Outcome.timeoutError m) ∨
      (∃ e, (wait_for_zone_404 c zone_id t0 fuel).outcome = Outcome.clientError e)) :=
  ⟨(loop404_ok_spec c zone_id t0 fuel t0).1, (loop404_ok_spec c zone_id t0 fuel t0).2,
    loop404_cases c zone_id t0 fuel t0⟩

/-- C4: an error other than `NotFound` observed by any `show_zone` call makes
that call the last one and becomes the outcome of the waiter, in both
waiters; and in `wait_for_zone_status` even `NotFound` propagates the same
way (`NotFound` is special only in `wait_for_zone_404`). -/
theorem show_errors_propagate (c : Client) (zone_id status : String) (t0 fuel e : Nat) :
    (ShowResult.clientError e ∈ (wait_for_zone_404 c zone_id t0 fuel).trace →
      (wait_for_zone_404 c zone_id t0 fuel).outcome = Outcome.clientError e ∧
      (wait_for_zone_404 c zone_id t0 fuel).trace.getLast? =
        some (ShowResult.clientError e)) ∧
    (ShowResult.clientError e ∈ (wait_for_zone_status c zone_id status t0 fuel).trace →
      (wait_for_zone_status c zone_id status t0 fuel).outcome = Outcome.clientError e ∧
      (wait_for_zone_status c zone_id status t0 fuel).trace.getLast? =
        some (ShowResult.clientError e)) ∧
    (ShowResult.notFound ∈ (wait_for_zone_status c zone_id status t0 fuel).trace →
      (wait_for_zone_status c zone_id status t0 fuel).outcome = Outcome.notFound ∧
      (wait_for_zone_status c zone_id status t0 fuel).trace.getLast? =
        some ShowResult.notFound) :=
  ⟨loop404_clientError_mem c zone_id t0 fuel t0 e,
    (statusRun_propagate c zone_id status t0 fuel).1 e,
    (statusRun_propagate c zone_id status t0 fuel).2⟩

/-- C5: `wait_for_zone_404` records its `start` as the wall-clock time `t0` at
entry, before any sleep or fetch; `wait_for_zone_status` records `start` only
after the initial fetch completed (so `start` is `t0` plus the latency of that
fetch), and never records it when the initial fetch raises. -/
theorem start_time_recording (c : Client) (zone_id status : String) (t0 fuel : Nat) :
    (wait_for_zone_404 c zone_id t0 fuel).start = some t0 ∧
    (wait_for_zone_status c zone_id status t0 fuel).start =
      (match c.show_zone t0 with
       | ShowResult.ok _ => some (t0 + c.show_latency t0)
       | _ => none) := by
  constructor
  · exact loop404_start_eq c zone_id t0 fuel t0
  · simp only [wait_for_zone_status]
    cases hs : c.show_zone t0 with
    | notFound => rfl
    | clientError e => rfl
    | ok zone =>
      dsimp only
      by_cases hst : zone.status = status
      · rw [if_pos hst]
      · rw [if_neg hst]
        exact loopStatus_start_eq c zone_id status (t0 + c.show_latency t0) fuel
          (t0 + c.show_latency t0)

/-- C6 (amended): for a resource deleted `ttd` seconds after the wait starts,
with `ttd` below the deadline, `wait_for_zone_404` (with instantaneous
fetches) succeeds, and the number of `show_zone` calls is
`ceil(ttd / interval)` when `ttd ≥ 1` but `1` when `ttd = 0`: the loop always
sleeps and polls at least once. -/
theorem wait_for_zone_404_deleted_call_count (c : Client) (zone_id : String) (z : Zone)
    (t0 ttd fuel : Nat)
    (hi : 1 ≤ c.build_interval)
    (hlat : ∀ t, c.show_latency t = 0)
    (henv : ∀ t, t0 ≤ t →
      c.show_zone t = if t < t0 + ttd then ShowResult.ok z else ShowResult.notFound)
    (httd : ttd < c.build_timeout)
    (hfuel1 : 1 ≤ fuel) (hfuel2 : ttd ≤ fuel * c.build_interval) :
    (wait_for_zone_404 c zone_id t0 fuel).outcome = Outcome.ok ∧
    (wait_for_zone_404 c zone_id t0 fuel).trace.length =
      max 1 ((ttd + c.build_interval - 1) / c.build_interval) := by
  by_cases h0 : ttd = 0
  · subst h0
    obtain ⟨n, rfl⟩ : ∃ n, fuel = n + 1 := ⟨fuel - 1, by omega⟩
    have henv1 := henv (t0 + c.build_interval) (by omega)
    rw [if_neg (by omega)] at henv1
    simp only [wait_for_zone_404, wait_for_zone_404_loop, henv1]
    refine ⟨trivial, ?_⟩
    have hdiv : (0 + c.build_interval - 1) / c.build_interval = 0 := by
      rw [Nat.zero_add]
      exact Nat.div_eq_of_lt (by omega)
    rw [List.length_singleton, hdiv]
    exact (max_eq_left (Nat.zero_le 1)).symm
  · have hmain := loop404_deleted c zone_id z t0 ttd hi hlat henv (Nat.le_of_lt httd)
      fuel t0 (Nat.le_refl t0) (by omega) (by omega)
    rw [Nat.add_sub_cancel_left] at hmain
    refine ⟨hmain.1, ?_⟩
    simp only [wait_for_zone_404]
    rw [hmain.2]
    have hone : 1 ≤ (ttd + c.build_interval - 1) / c.build_interval :=
      (Nat.one_le_div_iff (by omega)).mpr (by omega)
    exact (max_eq_right hone).symm

/-- C9 (amended): every `TimeoutException` message of either waiter is exactly
the source's format applied to the actual resource id, the target condition
(404 or the target status), the last-observed zone status, and the configured
`build_timeout` budget, prefixed with the calling-test identifier when one is
available — the measured elapsed time is not part of the message. -/
theorem timeout_message_contents (c : Client) (zone_id status : String) (t0 fuel : Nat) :
    (∀ m, (wait_for_zone_404 c zone_id t0 fuel).outcome = Outcome.timeoutError m →
      ∃ z, (wait_for_zone_404 c zone_id t0 fuel).trace.getLast? = some (ShowResult.ok z) ∧
        m = applyCaller c.test_caller
          (zone404TimeoutMessage zone_id z.status c.build_timeout)) ∧
    (∀ m, (wait_for_zone_status c zone_id status t0 fuel).outcome = Outcome.timeoutError m →
      ∃ z, (wait_for_zone_status c zone_id status t0 fuel).trace.getLast? =
          some (ShowResult.ok z) ∧
        m = applyCaller c.test_caller
          (zoneStatusTimeoutMessage zone_id status z.status c.build_timeout)) := by
  constructor
  · intro m hm
    obtain ⟨_, z, hl, hmsg⟩ := loop404_timeout_spec c zone_id t0 fuel t0 m hm
    exact ⟨z, hl, hmsg⟩
  · intro m hm
    obtain ⟨_, z, hl, hmsg⟩ := statusRun_timeout_spec c zone_id status t0 fuel m hm
    exact ⟨z, hl, hmsg⟩

/-- C7: a `handle_errors`-wrapped call given an explicit `ignore_errors` set
returns `None` (a zero-value result, `Except.ok none`) instead of propagating
when the wrapped function raises an error whose kind is in the set; an error
whose kind is not in the set, or any error when `ignore_errors` was not
supplied, propagates.  The set is read from the keyword arguments of the one
call, so the suppression applies only to that call. -/
theorem handle_errors_suppression {A K B : Type} (f : A → K → Except Nat B)
    (a : A) (ig : List Nat) (rest : K) (e : Nat) :
    (f a rest = Except.error e → e ∈ ig →
      handle_errors f a ⟨some ig, rest⟩ = Except.ok none) ∧
    (f a rest = Except.error e → e ∉ ig →
      handle_errors f a ⟨some ig, rest⟩ = Except.error e) ∧
    (f a rest = Except.error e →
      handle_errors f a ⟨none, rest⟩ = Except.error e) := by
  refine ⟨?_, ?_, ?_⟩
  · intro hf hin
    simp [handle_errors, hf, hin]
  · intro hf hnin
    simp [handle_errors, hf, hnin]
  · intro hf
    simp [handle_errors, hf]

/-- C10: the `handle_errors` wrapper deletes `ignore_errors` from the keyword
arguments before invoking the wrapped function — the wrapper's behaviour
depends on the wrapped function only through its value at the remaining
arguments, which are passed through unchanged — and when the wrapped function
returns normally the wrapper returns exactly its result. -/
theorem handle_errors_frame {A K B : Type} (f g : A → K → Except Nat B)
    (a : A) (ig : Option (List Nat)) (rest : K) (r : B) :
    (f a rest = Except.ok r →
      handle_errors f a ⟨ig, rest⟩ = Except.ok (some r)) ∧
    (f a rest = g a rest →
      handle_errors f a ⟨ig, rest⟩ = handle_errors g a ⟨ig, rest⟩) := by
  constructor
  · intro hf
    simp [handle_errors, hf]
  · intro hfg
    simp [handle_errors, hfg]

/-- C8: the create request succeeds exactly when the response status code is
in `[201, 202]`, the show request exactly when it is `200`, and the delete
request exactly when it is in `[202, 204]`; any other code makes the request
raise a service error carrying that code. -/
theorem request_status_code_contract {Obj : Type} (env : RestEnv Obj)
    (pref resource uuid : String) (obj : Obj) (params : Option String) :
    (create_request env pref resource obj params =
      (if (env.post (get_uri pref resource none params) (env.serialize obj)).1 ∈ [201, 202]
       then Except.ok ((env.post (get_uri pref resource none params) (env.serialize obj)).1,
         env.deserialize (env.post (get_uri pref resource none params) (env.serialize obj)).2)
       else Except.error
         (env.post (get_uri pref resource none params) (env.serialize obj)).1)) ∧
    (show_request env pref resource uuid params =
      (if (env.get (get_uri pref resource (some uuid) params)).1 = 200
       then Except.ok ((env.get (get_uri pref resource (some uuid) params)).1,
         env.deserialize (env.get (get_uri pref resource (some uuid) params)).2)
       else Except.error (env.get (get_uri pref resource (some uuid) params)).1)) ∧
    (delete_request env pref resource uuid params =
      (if (env.delete (get_uri pref resource (some uuid) params)).1 ∈ [202, 204]
       then Except.ok ((env.delete (get_uri pref resource (some uuid) params)).1,
         env.deserialize (env.delete (get_uri pref resource (some uuid) params)).2)
       else Except.error (env.delete (get_uri pref resource (some uuid) params)).1)) := by
  refine ⟨?_, ?_, ?_⟩
  · by_cases h : (env.post (get_uri pref resource none params) (env.serialize obj)).1 ∈ [201, 202]
    · simp [create_request, expected_success, h]
    · simp [create_request, expected_success, h]
  · by_cases h : (env.get (get_uri pref resource (some uuid) params)).1 = 200
    · simp [show_request, expected_success, h]
    · simp [show_request, expected_success, h]
  · by_cases h : (env.delete (get_uri pref resource (some uuid) params)).1 ∈ [202, 204]
    · simp [delete_request, expected_success, h]
    · simp [delete_request, expected_success, h]

/-- Counterexample to C1 as stated: the successful outcome of
`wait_for_zone_status` is identical for two services whose (distinct) final
snapshots differ, because the source returns `None` rather than the snapshot
— so the waiter cannot be returning the final resource snapshot. -/
theorem wait_for_zone_status_no_snapshot_counterexample :
    (wait_for_zone_status clientSnapA "zid1" "ACTIVE" 0 3).outcome =
      (wait_for_zone_status clientSnapB "zid1" "ACTIVE" 0 3).outcome ∧
    (wait_for_zone_status clientSnapA "zid1" "ACTIVE" 0 3).outcome = Outcome.ok ∧
    clientSnapA.show_zone 0 = ShowResult.ok ⟨"a", "ACTIVE"⟩ ∧
    clientSnapB.show_zone 0 = ShowResult.ok ⟨"b", "ACTIVE"⟩ ∧
    Zone.mk "a" "ACTIVE" ≠ Zone.mk "b" "ACTIVE" := by
  decide

/-- Counterexample to C6 as stated: for a resource already deleted when the
wait starts (`time_to_deletion = 0`, modelled by `clientGone`, whose every
poll sees `NotFound`), the waiter still sleeps once and makes one `show_zone`
call, while `ceil(0 / interval) = 0`. -/
theorem wait_for_zone_404_zero_deletion_counterexample :
    (wait_for_zone_404 clientGone "zid1" 0 3).outcome = Outcome.ok ∧
    (wait_for_zone_404 clientGone "zid1" 0 3).trace.length = 1 ∧
    (0 + clientGone.build_interval - 1) / clientGone.build_interval = 0 ∧
    (wait_for_zone_404 clientGone "zid1" 0 3).trace.length ≠
      (0 + clientGone.build_interval - 1) / clientGone.build_interval := by
  decide

/-- Counterexample to C9 as stated: two timed-out executions (intervals 3 and
4, same timeout 4) whose elapsed times differ — 6 versus 4 seconds — raise
`TimeoutException` with identical outcomes, message included, so the message
cannot carry the elapsed time. -/
theorem timeout_message_no_elapsed_counterexample :
    (wait_for_zone_404 clientSlowPollA "zid1" 0 9).outcome =
      (wait_for_zone_404 clientSlowPollB "zid1" 0 9).outcome ∧
    (wait_for_zone_404 clientSlowPollA "zid1" 0 9).outcome.isTimeout = true ∧
    (wait_for_zone_404 clientSlowPollA "zid1" 0 9).start = some 0 ∧
    (wait_for_zone_404 clientSlowPollB "zid1" 0 9).start = some 0 ∧
    (wait_for_zone_404 clientSlowPollA "zid1" 0 9).finish = 6 ∧
    (wait_for_zone_404 clientSlowPollB "zid1" 0 9).finish = 4 := by
  decide

/-- Witness for C1: the zone of `clientReach` is ACTIVE from time 2 on, within
the deadline, and the waiter succeeds with the last fetched snapshot ACTIVE. -/
theorem wait_for_zone_status_reaches_target_witness :
    (wait_for_zone_status clientReach "zid1" "ACTIVE" 0 5).outcome = Outcome.ok ∧
    ∃ z, (wait_for_zone_status clientReach "zid1" "ACTIVE" 0 5).trace.getLast? =
        some (ShowResult.ok z) ∧ z.status = "ACTIVE" :=
  wait_for_zone_status_reaches_target clientReach "zid1" "ACTIVE" 2 0 5
    (by decide) (fun t => rfl)
    (fun t => ⟨⟨"zid1", if t < 2 then "PENDING" else "ACTIVE"⟩, rfl⟩)
    (fun t z ht hz => by
      simp only [clientReach] at hz
      rw [if_neg (by omega)] at hz
      cases hz
      rfl)
    (by decide) (by decide) (by decide)

/-- Witness for C2: both waiters time out against `clientStuck` and the
deadline bound holds at that concrete input. -/
theorem timeouts_respect_deadline_witness :
    (clientStuck.build_timeout ≤ (wait_for_zone_404 clientStuck "zid1" 0 5).finish - 0 ∧
      ∃ z, (wait_for_zone_404 clientStuck "zid1" 0 5).trace.getLast? =
        some (ShowResult.ok z)) ∧
    (∃ s, (wait_for_zone_status clientStuck "zid1" "ACTIVE" 0 5).start = some s ∧
      clientStuck.build_timeout ≤
        (wait_for_zone_status clientStuck "zid1" "ACTIVE" 0 5).finish - s ∧
      ∃ z, (wait_for_zone_status clientStuck "zid1" "ACTIVE" 0 5).trace.getLast? =
        some (ShowResult.ok z)) :=
  ⟨(timeouts_respect_deadline clientStuck "zid1" "ACTIVE" 0 5).1 (by decide),
   (timeouts_respect_deadline clientStuck "zid1" "ACTIVE" 0 5).2 (by decide)⟩

/-- Witness for C3: against `clientGone` the first poll raises `NotFound` and
the waiter returns successfully with that as its last call. -/
theorem wait_for_zone_404_success_iff_witness :
    ShowResult.notFound ∈ (wait_for_zone_404 clientGone "zid1" 0 3).trace ∧
    (wait_for_zone_404 clientGone "zid1" 0 3).trace.getLast? = some ShowResult.notFound :=
  ⟨((wait_for_zone_404_success_iff clientGone "zid1" 0 3).1).mp (by decide),
   (wait_for_zone_404_success_iff clientGone "zid1" 0 3).2.1 (by decide)⟩

/-- Witness for C4: a client error of code 500 aborts both waiters at its
first occurrence, and `NotFound` aborts `wait_for_zone_status`. -/
theorem show_errors_propagate_witness :
    ((wait_for_zone_404 clientBroken "zid1" 0 3).outcome = Outcome.clientError 500 ∧
      (wait_for_zone_404 clientBroken "zid1" 0 3).trace.getLast? =
        some (ShowResult.clientError 500)) ∧
    ((wait_for_zone_status clientBroken "zid1" "ACTIVE" 0 3).outcome = Outcome.clientError 500 ∧
      (wait_for_zone_status clientBroken "zid1" "ACTIVE" 0 3).trace.getLast? =
        some (ShowResult.clientError 500)) ∧
    ((wait_for_zone_status clientGone "zid1" "ACTIVE" 0 3).outcome = Outcome.notFound ∧
      (wait_for_zone_status clientGone "zid1" "ACTIVE" 0 3).trace.getLast? =
        some ShowResult.notFound) :=
  ⟨(show_errors_propagate clientBroken "zid1" "ACTIVE" 0 3 500).1 (by decide),
   (show_errors_propagate clientBroken "zid1" "ACTIVE" 0 3 500).2.1 (by decide),
   (show_errors_propagate clientGone "zid1" "ACTIVE" 0 3 500).2.2 (by decide)⟩

/-- Witness for C6: a resource deleted 2 seconds into the wait, polled every
second, is detected with exactly 2 `show_zone` calls. -/
theorem wait_for_zone_404_deleted_call_count_witness :
    (wait_for_zone_404 clientDel2 "zid1" 0 5).outcome = Outcome.ok ∧
    (wait_for_zone_404 clientDel2 "zid1" 0 5).trace.length =
      max 1 ((2 + clientDel2.build_interval - 1) / clientDel2.build_interval) :=
  wait_for_zone_404_deleted_call_count clientDel2 "zid1" pendingZone 0 2 5
    (by decide) (fun t => rfl) (fun t ht => rfl)
    (by decide) (by decide) (by decide)

/-- Witness for C7: an error of kind 404 is suppressed when listed, propagates
when the list holds only 500, and propagates when no list is supplied. -/
theorem handle_errors_suppression_witness :
    handle_errors (fun (_ : Unit) (_ : Unit) => (Except.error 404 : Except Nat Nat))
      () ⟨some [404], ()⟩ = Except.ok none ∧
    handle_errors (fun (_ : Unit) (_ : Unit) => (Except.error 404 : Except Nat Nat))
      () ⟨some [500], ()⟩ = Except.error 404 ∧
    handle_errors (fun (_ : Unit) (_ : Unit) => (Except.error 404 : Except Nat Nat))
      () ⟨none, ()⟩ = Except.error 404 :=
  ⟨(handle_errors_suppression (fun _ _ => Except.error 404) () [404] () 404).1
      rfl (by decide),
   (handle_errors_suppression (fun _ _ => Except.error 404) () [500] () 404).2.1
      rfl (by decide),
   (handle_errors_suppression (fun _ _ => Except.error 404) () [404] () 404).2.2 rfl⟩

/-- Witness for C9: the timed-out run against `clientStuck` carries exactly
the formatted message naming the zone id, the 404 condition, the last status
PENDING and the configured 2-second budget. -/
theorem timeout_message_contents_witness :
    ∃ z, (wait_for_zone_404 clientStuck "zid1" 0 5).trace.getLast? =
        some (ShowResult.ok z) ∧
      zone404TimeoutMessage "zid1" "PENDING" 2 =
        applyCaller clientStuck.test_caller
          (zone404TimeoutMessage "zid1" z.status clientStuck.build_timeout) :=
  (timeout_message_contents clientStuck "zid1" "ACTIVE" 0 5).1
    (zone404TimeoutMessage "zid1" "PENDING" 2) (by decide)

/-- Witness for C10: a successful result is passed through unchanged, and two
wrapped functions agreeing at the call's arguments yield the same wrapper
result. -/
theorem handle_errors_frame_witness :
    handle_errors (fun (_ : Unit) (_ : Unit) => (Except.ok 7 : Except Nat Nat))
      () ⟨some [404], ()⟩ = Except.ok (some 7) ∧
    handle_errors (fun (_ : Unit) (_ : Unit) => (Except.ok 7 : Except Nat Nat))
      () ⟨some [404], ()⟩ =
      handle_errors (fun (_ : Unit) (_ : Unit) => (Except.ok (3 + 4) : Except Nat Nat))
        () ⟨some [404], ()⟩ :=
  ⟨(handle_errors_frame (fun _ _ => Except.ok 7) (fun _ _ => Except.ok 7)
      () (some [404]) () 7).1 rfl,
   (handle_errors_frame (fun _ _ => Except.ok 7) (fun _ _ => Except.ok (3 + 4))
      () (some [404]) () 7).2 rfl⟩
